import Mathlib

/-!
Verification of the trading-ai signal-to-trade pipeline.

This file gives a shallow embedding of the decision core of the repository
(signal parser number handling and confidence, risk manager, paper trading
engine / ledger, and the Alpaca auto-execute orchestrator) and proves the
specified properties about it.

Modelling conventions:
* Python floats are modelled as exact rationals (`ℚ`); none of the verified
  properties depends on binary floating-point rounding.
* Python dicts keyed by strings are modelled as association lists with the
  same get/insert/erase behaviour.
* Nondeterministic inputs of the source (random slippage, wall-clock times,
  fresh uuid ids) and the outcomes of external collaborators (AI analyzer,
  broker, executor) are threaded as explicit parameters, universally
  quantified in the theorems.
* A Python statement that would raise an uncaught exception is modelled by
  an `Option` result being `none`, with the state as mutated up to the
  raise point.
-/

/-! ## Association-list helpers (Python `dict` semantics) -/

def alGet {α : Type} (k : String) : List (String × α) → Option α
  | [] => none
  | (k', v) :: rest => if k' = k then some v else alGet k rest

def alInsert {α : Type} (k : String) (v : α) : List (String × α) → List (String × α)
  | [] => [(k, v)]
  | (k', v') :: rest => if k' = k then (k, v) :: rest else (k', v') :: alInsert k v rest

def alErase {α : Type} (k : String) : List (String × α) → List (String × α)
  | [] => []
  | (k', v') :: rest => if k' = k then rest else (k', v') :: alErase k rest

/-! ## Enumerations from `models/trading.py` and `models/signals.py` -/

inductive PositionSide
  | long
  | short
  deriving DecidableEq, Repr

inductive TradeStatus
  | pending
  | opened
  | closed
  | cancelled
  deriving DecidableEq, Repr

inductive ExitReason
  | takeProfit
  | stopLoss
  | trailingStop
  | manual
  | liquidation
  | expired
  deriving DecidableEq, Repr

inductive SignalAction
  | long
  | short
  | buy
  | sell
  deriving DecidableEq, Repr

inductive SignalSource
  | telegram
  | email
  | webhook
  | manual
  | ai
  deriving DecidableEq, Repr

/-! ## Data model (`models/trading.py`, `models/signals.py`, `models/settings.py`)

Non-semantic fields of the source models (uuid `id`, `broker` tag,
`created_at`/`updated_at` timestamps, free-form metadata) are omitted;
the fields the verified operations read or write are kept. The source's
`leverage: int` participates only in float arithmetic, so it is carried
as a rational. -/

structure Position where
  symbol : String
  side : PositionSide
  entry_price : ℚ
  quantity : ℚ
  leverage : ℚ
  current_price : ℚ
  unrealized_pnl : ℚ
  unrealized_pnl_percent : ℚ
  stop_loss : Option ℚ
  take_profits : List ℚ
  deriving DecidableEq, Repr

structure Trade where
  signal_id : Option String
  symbol : String
  side : PositionSide
  entry_price : ℚ
  quantity : ℚ
  leverage : ℚ
  exit_price : Option ℚ
  exit_time : Option ℚ
  exit_reason : Option ExitReason
  realized_pnl : Option ℚ
  realized_pnl_percent : Option ℚ
  total_commission : ℚ
  status : TradeStatus
  stop_loss : Option ℚ
  take_profits : List ℚ
  deriving DecidableEq, Repr

structure Portfolio where
  initial_balance : ℚ
  current_balance : ℚ
  available_balance : ℚ
  margin_used : ℚ
  total_pnl : ℚ
  total_pnl_percent : ℚ
  open_positions : ℕ
  total_positions_value : ℚ
  total_trades : ℕ
  winning_trades : ℕ
  losing_trades : ℕ
  win_rate : ℚ
  max_drawdown : ℚ
  deriving DecidableEq, Repr

structure Signal where
  id : String
  source : SignalSource
  asset : String
  action : SignalAction
  entry : ℚ
  stop_loss : ℚ
  take_profits : List ℚ
  leverage : ℚ
  confidence : ℚ
  deriving DecidableEq, Repr

/-- Risk settings (`models/settings.py`, class `RiskSettings`).  The source
field `min_risk_reward_ratio` is carried here as `min_risk_reward`. -/
structure RiskSettings where
  max_risk_per_trade_percent : ℚ
  max_open_positions : ℕ
  max_correlation : ℚ
  min_risk_reward : ℚ
  max_portfolio_risk_percent : ℚ
  default_leverage : ℚ
  deriving DecidableEq, Repr

/-- Pydantic defaults of `RiskSettings`. -/
def defaultRiskSettings : RiskSettings :=
  { max_risk_per_trade_percent := 2
    max_open_positions := 5
    max_correlation := 7/10
    min_risk_reward := 3/2
    max_portfolio_risk_percent := 10
    default_leverage := 1 }

structure TradingSettings where
  initial_balance : ℚ
  risk_settings : RiskSettings
  deriving DecidableEq, Repr

def defaultTradingSettings : TradingSettings :=
  { initial_balance := 10000, risk_settings := defaultRiskSettings }

/-! ## `models/trading.py` methods -/

/-- `Position.update_pnl` from `models/trading.py`. -/
def Position.update_pnl (p : Position) (current_price : ℚ) : Position :=
  let pnl : ℚ :=
    if p.side = PositionSide.long then (current_price - p.entry_price) * p.quantity
    else (p.entry_price - current_price) * p.quantity
  let position_value := p.entry_price * p.quantity
  { p with
    current_price := current_price
    unrealized_pnl := pnl * p.leverage
    unrealized_pnl_percent := if position_value = 0 then 0 else pnl / position_value * 100 }

/-- `Trade.close` from `models/trading.py`; `now` stands for
`datetime.now(timezone.utc)`. -/
def Trade.close (t : Trade) (exit_price : ℚ) (exit_reason : ExitReason)
    (commission : ℚ) (now : ℚ) : Trade :=
  let pnl : ℚ :=
    if t.side = PositionSide.long then (exit_price - t.entry_price) * t.quantity
    else (t.entry_price - exit_price) * t.quantity
  let position_value := t.entry_price * t.quantity
  { t with
    exit_price := some exit_price
    exit_time := some now
    exit_reason := some exit_reason
    status := TradeStatus.closed
    realized_pnl := some (pnl * t.leverage - commission)
    realized_pnl_percent := some (if position_value = 0 then 0 else pnl / position_value * 100)
    total_commission := t.total_commission + commission }

/-- `Portfolio.update_from_trade` from `models/trading.py`. -/
def Portfolio.update_from_trade (p : Portfolio) (t : Trade) : Portfolio :=
  match t.realized_pnl with
  | none => p
  | some rp =>
    if t.status ≠ TradeStatus.closed then p
    else
      let total_trades := p.total_trades + 1
      let current_balance := p.current_balance + rp
      { p with
        total_trades := total_trades
        total_pnl := p.total_pnl + rp
        current_balance := current_balance
        available_balance := current_balance - p.margin_used
        total_pnl_percent := (current_balance - p.initial_balance) / p.initial_balance * 100
        winning_trades := if rp > 0 then p.winning_trades + 1 else p.winning_trades
        losing_trades := if rp > 0 then p.losing_trades else p.losing_trades + 1
        win_rate := if total_trades > 0 then
            ((if rp > 0 then p.winning_trades + 1 else p.winning_trades : ℕ) : ℚ)
              / (total_trades : ℚ) * 100
          else 0 }

/-! ## Risk manager (`services/risk_manager.py`) -/

/-- Structured rejection reasons; the source formats them as strings. -/
inductive RejectReason
  | maxOpenPositions
  | duplicateSymbol
  | insufficientBalance
  | invalidStopLoss
  | positionTooLarge
  | portfolioRiskTooHigh
  deriving DecidableEq, Repr

inductive RiskWarning
  | lowRiskReward
  | correlated (symbol : String)
  deriving DecidableEq, Repr

structure PositionSizeResult where
  valid : Bool
  reason : Option RejectReason
  position_size : ℚ
  risk_amount : ℚ
  risk_percent : ℚ
  position_value : ℚ
  deriving DecidableEq, Repr

structure RiskCheckResult where
  approved : Bool
  reason : Option RejectReason
  warnings : List RiskWarning
  position_size : ℚ
  risk_amount : ℚ
  risk_percent : ℚ
  deriving DecidableEq, Repr

/-- `RiskManager.calculate_position_size` from `services/risk_manager.py`. -/
def calculate_position_size (entry_price stop_loss account_balance : ℚ)
    (max_risk_percent : ℚ) (leverage : ℚ) : PositionSizeResult :=
  let risk_amount := account_balance * (max_risk_percent / 100)
  let risk_per_unit := |entry_price - stop_loss|
  if risk_per_unit ≤ 0 then
    { valid := false, reason := some RejectReason.invalidStopLoss
      position_size := 0, risk_amount := 0, risk_percent := 0, position_value := 0 }
  else
    let position_size := risk_amount / risk_per_unit
    let actual_risk_amount := position_size * risk_per_unit
    let actual_risk_percent := actual_risk_amount / account_balance * 100
    let position_value := position_size * entry_price
    let max_position_value := account_balance * leverage
    if position_value > max_position_value then
      { valid := false, reason := some RejectReason.positionTooLarge
        position_size := 0, risk_amount := 0, risk_percent := 0, position_value := 0 }
    else
      { valid := true, reason := none
        position_size := position_size, risk_amount := actual_risk_amount
        risk_percent := actual_risk_percent, position_value := position_value }

/-- `RiskManager._calculate_risk_reward` from `services/risk_manager.py`. -/
def calculate_risk_reward (entry stop_loss take_profit : ℚ) (action : SignalAction) : ℚ :=
  let is_long := action = SignalAction.long ∨ action = SignalAction.buy
  let risk := if is_long then |entry - stop_loss| else |stop_loss - entry|
  let reward := if is_long then |take_profit - entry| else |entry - take_profit|
  if risk ≤ 0 then 0 else reward / risk

/-- `RiskManager._are_correlated` from `services/risk_manager.py` (base-asset
prefix: the part before `/`, else the first three characters). -/
def are_correlated (symbol1 symbol2 : String) : Bool :=
  let base (s : String) : List Char :=
    if s.toList.contains '/' then s.toList.takeWhile (· ≠ '/') else s.toList.take 3
  base symbol1 = base symbol2

/-- Per-position risk-to-stop term of the portfolio-risk check in
`RiskManager.validate_trade` (`if pos.stop_loss:` is Python truthiness,
so a stop of exactly 0 contributes nothing). -/
def positionRisk (p : Position) : ℚ :=
  match p.stop_loss with
  | none => 0
  | some sl => if sl = 0 then 0 else |p.entry_price - sl| * p.quantity

/-- `RiskManager.validate_trade` from `services/risk_manager.py`. -/
def validate_trade (s : RiskSettings) (signal : Signal) (balance : ℚ)
    (current_positions : List Position) : RiskCheckResult :=
  if current_positions.length ≥ s.max_open_positions then
    { approved := false, reason := some RejectReason.maxOpenPositions
      warnings := [], position_size := 0, risk_amount := 0, risk_percent := 0 }
  else if current_positions.any (fun p => p.symbol = signal.asset) then
    { approved := false, reason := some RejectReason.duplicateSymbol
      warnings := [], position_size := 0, risk_amount := 0, risk_percent := 0 }
  else if balance ≤ 0 then
    { approved := false, reason := some RejectReason.insufficientBalance
      warnings := [], position_size := 0, risk_amount := 0, risk_percent := 0 }
  else
    let ps := calculate_position_size signal.entry signal.stop_loss balance
      s.max_risk_per_trade_percent signal.leverage
    if ¬ps.valid then
      { approved := false, reason := ps.reason
        warnings := [], position_size := 0, risk_amount := 0, risk_percent := 0 }
    else
      let warnings1 : List RiskWarning :=
        match signal.take_profits with
        | [] => []
        | tp :: _ =>
          if calculate_risk_reward signal.entry signal.stop_loss tp signal.action
              < s.min_risk_reward then [RiskWarning.lowRiskReward] else []
      let total_risk := ps.risk_amount + (current_positions.map positionRisk).sum
      let total_risk_percent := total_risk / balance * 100
      if total_risk_percent > s.max_portfolio_risk_percent then
        { approved := false, reason := some RejectReason.portfolioRiskTooHigh
          warnings := [], position_size := 0, risk_amount := 0, risk_percent := 0 }
      else
        let warnings2 := warnings1 ++
          (current_positions.filter (fun p => are_correlated signal.asset p.symbol)).map
            (fun p => RiskWarning.correlated p.symbol)
        { approved := true, reason := none, warnings := warnings2
          position_size := ps.position_size, risk_amount := ps.risk_amount
          risk_percent := ps.risk_percent }

/-! ## Paper trading engine (`services/trading_engine.py`) -/

structure EngineState where
  settings : TradingSettings
  portfolio : Portfolio
  positions : List (String × Position)
  trades : List (String × Trade)
  open_trades : List String
  deriving DecidableEq, Repr

/-- `TradingEngine.__init__`. -/
def initEngine (settings : TradingSettings) : EngineState :=
  { settings := settings
    portfolio :=
      { initial_balance := settings.initial_balance
        current_balance := settings.initial_balance
        available_balance := settings.initial_balance
        margin_used := 0, total_pnl := 0, total_pnl_percent := 0
        open_positions := 0, total_positions_value := 0
        total_trades := 0, winning_trades := 0, losing_trades := 0
        win_rate := 0, max_drawdown := 0 }
    positions := []
    trades := []
    open_trades := [] }

/-- The position size actually used by `TradingEngine.execute_signal`:
`custom_quantity if custom_quantity else risk_check.position_size`
(Python truthiness, so a custom quantity of 0 falls back). -/
def executedQuantity (rc : RiskCheckResult) (custom_quantity : Option ℚ) : ℚ :=
  match custom_quantity with
  | some q => if q = 0 then rc.position_size else q
  | none => rc.position_size

/-- The risk validation call made by `TradingEngine.execute_signal`
(balance is the portfolio's available balance, positions the current
position values). -/
def engineRiskCheck (st : EngineState) (signal : Signal) : RiskCheckResult :=
  validate_trade st.settings.risk_settings signal
    st.portfolio.available_balance (st.positions.map Prod.snd)

/-- `TradingEngine.execute_signal`.  `slippage_factor` stands for
`random.uniform(0.9995, 1.0005)` and `trade_id` for the fresh uuid of the
created trade. -/
def execute_signal (st : EngineState) (signal : Signal) (custom_quantity : Option ℚ)
    (slippage_factor : ℚ) (trade_id : String) : Option Trade × EngineState :=
  let risk_check := engineRiskCheck st signal
  if ¬risk_check.approved then (none, st)
  else
    let position_size := executedQuantity risk_check custom_quantity
    let entry_price := signal.entry * slippage_factor
    let is_long := signal.action = SignalAction.long ∨ signal.action = SignalAction.buy
    let trade : Trade :=
      { signal_id := some signal.id
        symbol := signal.asset
        side := if is_long then PositionSide.long else PositionSide.short
        entry_price := entry_price
        quantity := position_size
        leverage := signal.leverage
        exit_price := none, exit_time := none, exit_reason := none
        realized_pnl := none, realized_pnl_percent := none
        total_commission := 0
        status := TradeStatus.opened
        stop_loss := some signal.stop_loss
        take_profits := signal.take_profits }
    let position : Position :=
      { symbol := signal.asset
        side := if is_long then PositionSide.long else PositionSide.short
        entry_price := entry_price
        quantity := position_size
        leverage := signal.leverage
        current_price := entry_price
        unrealized_pnl := 0, unrealized_pnl_percent := 0
        stop_loss := some signal.stop_loss
        take_profits := signal.take_profits }
    let trades2 := alInsert trade_id trade st.trades
    let open2 := st.open_trades ++ [trade_id]
    let positions2 := alInsert signal.asset position st.positions
    let margin_required := position_size * entry_price / signal.leverage
    let port1 := { st.portfolio with margin_used := st.portfolio.margin_used + margin_required }
    let port2 := { port1 with available_balance := port1.current_balance - port1.margin_used }
    let port3 := { port2 with
      open_positions := positions2.length
      total_positions_value := (positions2.map (fun p => p.2.quantity * p.2.current_price)).sum }
    (some trade,
      { st with
        portfolio := port3
        positions := positions2
        trades := trades2
        open_trades := open2 })

/-- `TradingEngine.close_trade`.  `slippage` stands for
`random.uniform(-0.005, 0.005)` and `now` for the wall-clock time.  The
first component is `none` when the source would raise a `TypeError`
(default exit price resolves to Python `None`); at that point the trade's
exit fields have already been set by `Trade.close` but the portfolio is
untouched. -/
def close_trade (st : EngineState) (trade_id : String) (exit_reason : ExitReason)
    (exit_price? : Option ℚ) (slippage : ℚ) (now : ℚ) : Option Bool × EngineState :=
  match alGet trade_id st.trades with
  | none => (some false, st)
  | some t =>
    if t.status = TradeStatus.closed then (some false, st)
    else
      match alGet t.symbol st.positions with
      | none =>
        (some true,
          { st with trades := alInsert trade_id ({ t with status := TradeStatus.closed }) st.trades })
      | some _pos =>
        let ep? : Option ℚ :=
          match exit_price? with
          | some p => some p
          | none =>
            if exit_reason = ExitReason.stopLoss then t.stop_loss
            else if exit_reason = ExitReason.takeProfit ∧ t.take_profits ≠ [] then
              t.take_profits.head?
            else some (t.entry_price * (1 + slippage))
        match ep? with
        | none =>
          let t3 := { t with
            exit_price := none
            exit_time := some now
            exit_reason := some exit_reason
            status := TradeStatus.closed }
          (none, { st with trades := alInsert trade_id t3 st.trades })
        | some ep =>
          let t2 := Trade.close t ep exit_reason 0 now
          let port1 := Portfolio.update_from_trade st.portfolio t2
          let margin_released := t2.quantity * t2.entry_price / t2.leverage
          let port2 := { port1 with margin_used := port1.margin_used - margin_released }
          let port3 := { port2 with available_balance := port2.current_balance - port2.margin_used }
          let positions2 := alErase t.symbol st.positions
          let open2 := st.open_trades.erase trade_id
          let port4 := { port3 with open_positions := positions2.length }
          (some true,
            { st with
              trades := alInsert trade_id t2 st.trades
              positions := positions2
              open_trades := open2
              portfolio := port4 })

/-- Stop-loss trigger of `TradingEngine.simulate_price_update`
(`if trade.stop_loss and new_price <= trade.stop_loss` for long, mirrored
for short; Python truthiness makes a stop of exactly 0 never trigger). -/
def stopHit (side : PositionSide) (new_price : ℚ) (stop_loss : Option ℚ) : Bool :=
  match stop_loss with
  | none => false
  | some sl =>
    if sl = 0 then false
    else if side = PositionSide.long then decide (new_price ≤ sl)
    else decide (new_price ≥ sl)

/-- Take-profit trigger of `TradingEngine.simulate_price_update`
(`trade.take_profits and new_price >= trade.take_profits[0]` for long,
mirrored for short; the first listed target is always used). -/
def tpHit (side : PositionSide) (new_price : ℚ) (take_profits : List ℚ) : Bool :=
  match take_profits.head? with
  | none => false
  | some tp =>
    if side = PositionSide.long then decide (new_price ≥ tp)
    else decide (new_price ≤ tp)

/-- Body of the SL/TP sweep in `TradingEngine.simulate_price_update`: the
handling of one entry of `open_trades`. -/
def sweepBody (sym : String) (new_price now : ℚ) (st : EngineState) (tid : String) :
    EngineState :=
  match alGet tid st.trades with
  | none => st
  | some t =>
    if t.symbol = sym then
      if stopHit t.side new_price t.stop_loss then
        (close_trade st tid ExitReason.stopLoss t.stop_loss 0 now).2
      else if tpHit t.side new_price t.take_profits then
        (close_trade st tid ExitReason.takeProfit t.take_profits.head? 0 now).2
      else st
    else st

/-- The `for trade_id in self.open_trades` loop of
`TradingEngine.simulate_price_update`, with Python's list-iterator
semantics: the cursor `i` advances by one each step while `close_trade`
may remove an element of the list being iterated (so closing a trade
makes the iterator skip the following entry, exactly as in the source). -/
def sweep (sym : String) (new_price now : ℚ) (i : ℕ) (st : EngineState) : EngineState :=
  if h : i < st.open_trades.length then
    sweep sym new_price now (i + 1) (sweepBody sym new_price now st (st.open_trades.get ⟨i, h⟩))
  else st
termination_by st.open_trades.length - i
decreasing_by
  have hclose : ∀ (r : ExitReason) (ep : Option ℚ) (sq : ℚ),
      (close_trade st (st.open_trades.get ⟨i, h⟩) r ep sq now).2.open_trades.length
        ≤ st.open_trades.length := by
    intro r ep sq
    unfold close_trade
    cases _h2 : alGet (st.open_trades.get ⟨i, h⟩) st.trades with
    | none => simp
    | some t2 =>
      simp only
      split
      · simp
      · cases _h3 : alGet t2.symbol st.positions with
        | none => simp
        | some pos =>
          simp only
          split
          · simp
          · simp [List.length_erase_le]
  have hle : (sweepBody sym new_price now st (st.open_trades.get ⟨i, h⟩)).open_trades.length
      ≤ st.open_trades.length := by
    unfold sweepBody
    cases _halg : alGet (st.open_trades.get ⟨i, h⟩) st.trades with
    | none => simp
    | some t =>
      simp only
      split
      · split
        · exact hclose ..
        · split
          · exact hclose ..
          · simp
      · simp
  omega

/-- `TradingEngine.simulate_price_update`.  `rand_change` stands for
`random.uniform(-2, 2)` (used when no explicit change is given), `now`
for the wall-clock time of any resulting closes. -/
def simulate_price_update (st : EngineState) (symbol : String)
    (change_percent : Option ℚ) (rand_change now : ℚ) : EngineState :=
  match alGet symbol st.positions with
  | none => st
  | some pos =>
    let change := change_percent.getD rand_change
    let new_price := pos.current_price * (1 + change / 100)
    let st1 := { st with
      positions := alInsert symbol (Position.update_pnl pos new_price) st.positions }
    sweep symbol new_price now 0 st1

/-- One ledger operation, for stating properties of operation sequences. -/
inductive EngineOp
  | exec (signal : Signal) (custom_quantity : Option ℚ) (slippage_factor : ℚ)
      (trade_id : String)
  | closeOp (trade_id : String) (exit_reason : ExitReason) (exit_price? : Option ℚ)
      (slippage : ℚ) (now : ℚ)

def applyOp (st : EngineState) : EngineOp → EngineState
  | EngineOp.exec sig cq slip tid => (execute_signal st sig cq slip tid).2
  | EngineOp.closeOp tid r ep sl now => (close_trade st tid r ep sl now).2

def runOps (st : EngineState) (ops : List EngineOp) : EngineState :=
  ops.foldl applyOp st

/-- The portfolio invariant of the specification. -/
def portfolioInv (st : EngineState) : Prop :=
  st.portfolio.available_balance = st.portfolio.current_balance - st.portfolio.margin_used

/-! ## Signal parser (`services/signal_parser.py`, `models/signals.py`) -/

/-- Intermediate parsing result (`models/signals.py`, class `ParsedSignal`). -/
structure ParsedSignal where
  raw_text : String
  confidence : ℚ
  asset : Option String
  action : Option String
  entry : Option ℚ
  stop_loss : Option ℚ
  take_profits : List ℚ
  leverage : Option ℤ
  timeframe : Option String
  errors : List String
  deriving DecidableEq, Repr

/-- Python truthiness of an optional string (None and the empty string are
falsy). -/
def truthyStr : Option String → Bool
  | none => false
  | some s => !s.isEmpty

/-- Python truthiness of an optional number (None and 0 are falsy). -/
def truthyQ : Option ℚ → Bool
  | none => false
  | some x => decide (x ≠ 0)

def truthyZ : Option ℤ → Bool
  | none => false
  | some x => decide (x ≠ 0)

/-- Value of a list of decimal digit characters. -/
def digitsVal (cs : List Char) : ℕ :=
  cs.foldl (fun a c => 10 * a + (c.toNat - '0'.toNat)) 0

/-- Python `str.strip()` over a character list (whitespace at both ends). -/
def pyStrip (cs : List Char) : List Char :=
  ((cs.dropWhile Char.isWhitespace).reverse.dropWhile Char.isWhitespace).reverse

/-- The behaviour of Python `float(text)` on the strings `_parse_number`
produces (digits and periods only; anything else fails): accepted iff the
string has at least one digit, at most one period, and no other
characters. -/
def pythonFloat (cs : List Char) : Option ℚ :=
  if cs.all (fun c => c.isDigit || c = '.') ∧ cs.count '.' ≤ 1 ∧ cs.any Char.isDigit then
    let intPart := cs.takeWhile (· ≠ '.')
    let fracPart := (cs.dropWhile (· ≠ '.')).drop 1
    some ((digitsVal intPart : ℚ) + (digitsVal fracPart : ℚ) / 10 ^ fracPart.length)
  else none

/-- Whether the right-most separator character (`,` or `.`) of the token is
a comma; with both present this is exactly `text.rfind(',') >
text.rfind('.')`. -/
def lastSepIsComma (cs : List Char) : Bool :=
  match cs.reverse.find? (fun c => c = ',' || c = '.') with
  | some c => c = ','
  | none => false

/-- `SignalParser._parse_number` from `services/signal_parser.py`. -/
def parse_number (s : String) : Option ℚ :=
  if s.isEmpty then none
  else
    let t := pyStrip s.toList
    let t2 :=
      if t.contains ',' ∧ t.contains '.' then
        if lastSepIsComma t then
          (t.filter (· ≠ '.')).map (fun c => if c = ',' then '.' else c)
        else t.filter (· ≠ ',')
      else if t.contains ',' then
        if t.count ',' = 1 ∧ ((t.dropWhile (· ≠ ',')).drop 1).length = 2 then
          t.map (fun c => if c = ',' then '.' else c)
        else t.filter (· ≠ ',')
      else t
    pythonFloat t2

/-- `SignalParser._calculate_confidence` from `services/signal_parser.py`
(all field tests are Python truthiness). -/
def calculate_confidence (p : ParsedSignal) : ℚ :=
  let score : ℚ :=
    (if truthyStr p.asset then 2 else 0)
    + (if truthyStr p.action then 2 else 0)
    + (if truthyQ p.entry then 2 else 0)
    + (if truthyQ p.stop_loss then 2 else 0)
    + (if p.take_profits ≠ [] then
        (if p.take_profits.length ≥ 2 then (3/2 : ℚ) else 1) else 0)
    + (if truthyZ p.leverage then 1/2 else 0)
    + (if truthyQ p.entry ∧ truthyQ p.stop_loss ∧
          ((p.action = some "long" ∧ p.stop_loss.getD 0 < p.entry.getD 0)
            ∨ (p.action = some "short" ∧ p.stop_loss.getD 0 > p.entry.getD 0))
        then 1/2 else 0)
    + (if truthyQ p.entry ∧ p.take_profits ≠ [] ∧
          ((p.action = some "long" ∧ p.take_profits.all (fun tp => p.entry.getD 0 < tp))
            ∨ (p.action = some "short" ∧ p.take_profits.all (fun tp => tp < p.entry.getD 0)))
        then 1/2 else 0)
  min (score / 10) 1

/-- `ParsedSignal.is_valid` from `models/signals.py` (`is not None`, not
truthiness). -/
def ParsedSignal.is_valid (p : ParsedSignal) : Bool :=
  p.asset.isSome && p.action.isSome && p.entry.isSome && p.stop_loss.isSome

/-- The pydantic field validation performed when `ParsedSignal.to_signal`
constructs a `Signal`: leverage must be in `[1, 125]` and confidence in
`[0, 1]`; a violation raises, which `to_signal` catches, returning
`None`. -/
def signalConstructionOk (leverage : ℤ) (confidence : ℚ) : Bool :=
  decide (1 ≤ leverage) && decide (leverage ≤ 125)
    && decide (0 ≤ confidence) && decide (confidence ≤ 1)

/-- `ParsedSignal.to_signal` from `models/signals.py`. -/
def ParsedSignal.to_signal (p : ParsedSignal) (source : SignalSource)
    (source_id : Option String) : Option Signal :=
  if ¬p.is_valid then none
  else
    let lev : ℤ := match p.leverage with
      | some l => if l = 0 then 1 else l
      | none => 1
    if ¬signalConstructionOk lev p.confidence then none
    else
      let asset := String.mk ((pyStrip (p.asset.getD "").toList).map Char.toUpper)
      let lowAction := (p.action.getD "").toList.map Char.toLower
      let action :=
        if lowAction = "long".toList ∨ lowAction = "buy".toList
        then SignalAction.long else SignalAction.short
      some
        { id := source_id.getD ""
          source := source
          asset := asset
          action := action
          entry := p.entry.getD 0
          stop_loss := p.stop_loss.getD 0
          take_profits := (p.take_profits.dedup).mergeSort (· ≤ ·)
          leverage := (lev : ℚ)
          confidence := p.confidence }

/-! ## Auto-execute orchestrator (`services/auto_execute_alpaca.py`)

External collaborators (AI analyzer, Alpaca broker, executor) are modelled
as oracle inputs to `process_signal`.  Times are rationals measured in
minutes; dates are integers.  The boolean `executorCalled` in the result
records whether `_execute_on_alpaca` was invoked. -/

structure RiskConfig where
  max_risk_per_trade : ℚ
  max_total_risk : ℚ
  max_position_size : ℚ
  min_risk_reward : ℚ
  default_trade_amount : ℚ
  scale_with_confidence : Bool
  score_multipliers : List (ℚ × ℚ)
  deriving DecidableEq, Repr

/-- Dataclass defaults of `RiskConfig`. -/
def defaultRiskConfig : RiskConfig :=
  { max_risk_per_trade := 2/100
    max_total_risk := 10/100
    max_position_size := 20/100
    min_risk_reward := 3/2
    default_trade_amount := 100
    scale_with_confidence := true
    score_multipliers := [(90, 2), (80, 3/2), (70, 1), (60, 1/2)] }

structure AutoExecuteConfig where
  enabled : Bool
  min_confidence : ℚ
  min_ai_score : ℚ
  require_ai_approval : Bool
  allowed_sources : List String
  max_daily_trades : ℕ
  max_open_positions : ℕ
  cooldown_minutes : ℚ
  risk : RiskConfig
  deriving DecidableEq, Repr

/-- Dataclass defaults of `AutoExecuteConfig`. -/
def defaultAutoExecuteConfig : AutoExecuteConfig :=
  { enabled := true
    min_confidence := 6/10
    min_ai_score := 60
    require_ai_approval := true
    allowed_sources := ["telegram", "telegram_channel", "telegram_bot", "webhook", "rss"]
    max_daily_trades := 10
    max_open_positions := 5
    cooldown_minutes := 5
    risk := defaultRiskConfig }

/-- The signal dict consumed by the orchestrator (`signal.get(...)` with
the defaults the source uses). -/
structure ASignal where
  id : String
  asset : String
  action : String
  source : String
  confidence : ℚ
  entry : ℚ
  stop_loss : ℚ
  take_profits : List ℚ
  deriving DecidableEq, Repr

structure TradeRecord where
  signal_id : String
  symbol : String
  amount : ℚ
  ai_score : ℚ
  deriving DecidableEq, Repr

structure AEState where
  config : AutoExecuteConfig
  analyzerPresent : Bool
  daily_trades : ℕ
  last_reset_date : ℤ
  trade_history : List TradeRecord
  last_trade_time : List (String × ℚ)
  consecutive_errors : ℕ
  max_consecutive_errors : ℕ
  deriving DecidableEq, Repr

/-- `AutoExecuteEngine.__init__` state (the error threshold is fixed to 5
there). -/
def initAEState (config : AutoExecuteConfig) (analyzerPresent : Bool) (today : ℤ) :
    AEState :=
  { config := config
    analyzerPresent := analyzerPresent
    daily_trades := 0
    last_reset_date := today
    trade_history := []
    last_trade_time := []
    consecutive_errors := 0
    max_consecutive_errors := 5 }

inductive AEReason
  | disabled
  | dailyLimit
  | sourceNotAllowed
  | confidenceTooLow
  | cooldownActive
  | circuitBreakerOpen
  | aiRejected
  | aiScoreTooLow
  | riskMaxPositions
  | riskRewardTooLow
  | execSuccess
  | execFailed
  deriving DecidableEq, Repr

/-- AI analyzer outcome (`SignalAnalysis`): score and `should_execute`. -/
structure AIOutcome where
  score : ℚ
  should_execute : Bool
  deriving DecidableEq, Repr

/-- Broker view used by `_check_risk_management`: available and total
balance and the number of open positions; `none` models `self.broker is
None`. -/
structure BrokerView where
  available : ℚ
  total : ℚ
  positionCount : ℕ
  deriving DecidableEq, Repr

/-- Python `round(x, 2)` on the position size.  Python rounds half to
even; the sizes in this development never sit on a half-cent boundary, so
round-half-up is used. -/
def pyRound2 (x : ℚ) : ℚ := (round (x * 100) : ℤ) / 100

/-- Score-tier multiplier lookup of `_check_risk_management`: iterate the
multipliers sorted by threshold descending, first threshold ≤ score
wins, default 1. -/
def scoreMultiplier (mults : List (ℚ × ℚ)) (score : ℚ) : ℚ :=
  match (mults.mergeSort (fun a b => a.1 ≥ b.1)).find? (fun tm => score ≥ tm.1) with
  | some tm => tm.2
  | none => 1

/-- `AlpacaAutoExecuteEngine._pre_flight_checks`.  `now` is the current
time in minutes. -/
def preFlightChecks (st : AEState) (signal : ASignal) (now : ℚ) : Option AEReason :=
  if st.daily_trades ≥ st.config.max_daily_trades then some AEReason.dailyLimit
  else if signal.source ≠ "" ∧ st.config.allowed_sources ≠ [] ∧
      ¬st.config.allowed_sources.any
        (fun s => decide (s.toList <:+: signal.source.toList.map Char.toLower)) then
    some AEReason.sourceNotAllowed
  else if signal.confidence < st.config.min_confidence then some AEReason.confidenceTooLow
  else
    match alGet signal.asset st.last_trade_time with
    | some tPrev =>
      if now - tPrev < st.config.cooldown_minutes then some AEReason.cooldownActive
      else if st.consecutive_errors ≥ st.max_consecutive_errors then
        some AEReason.circuitBreakerOpen
      else none
    | none =>
      if st.consecutive_errors ≥ st.max_consecutive_errors then
        some AEReason.circuitBreakerOpen
      else none

/-- `AlpacaAutoExecuteEngine._check_risk_management` (broker modelled as
an oracle; `none` is the no-broker paper default of 10000/10000). -/
def checkRiskManagement (cfg : AutoExecuteConfig) (signal : ASignal)
    (ai : Option AIOutcome) (broker : Option BrokerView) :
    Bool × Option AEReason × ℚ × ℚ :=
  let total_equity := match broker with
    | some b => b.total
    | none => 10000
  let positionsTooMany : Bool := match broker with
    | some b => decide (b.positionCount ≥ cfg.max_open_positions)
    | none => false
  if positionsTooMany then (false, some AEReason.riskMaxPositions, 0, 0)
  else
    let base_amount := cfg.risk.default_trade_amount *
      (match ai with
        | some a => if cfg.risk.scale_with_confidence then
            scoreMultiplier cfg.risk.score_multipliers a.score else 1
        | none => 1)
    let max_position := total_equity * cfg.risk.max_position_size
    let position_size := min base_amount max_position
    let rrReject : Bool :=
      if signal.entry ≠ 0 ∧ signal.stop_loss ≠ 0 ∧ signal.take_profits ≠ [] then
        let risk := |signal.entry - signal.stop_loss|
        let reward := |signal.take_profits.headI - signal.entry|
        if risk > 0 then decide (reward / risk < cfg.risk.min_risk_reward) else false
      else false
    if rrReject then (false, some AEReason.riskRewardTooLow, 0, 0)
    else
      let position_size := max position_size 10
      (true, none, pyRound2 position_size,
        pyRound2 (position_size * cfg.risk.max_risk_per_trade))

structure AEResult where
  executed : Bool
  reason : Option AEReason
  executorCalled : Bool
  deriving DecidableEq, Repr

/-- `AlpacaAutoExecuteEngine._check_daily_reset`. -/
def dailyReset (st : AEState) (today : ℤ) : AEState :=
  if today > st.last_reset_date then
    { st with daily_trades := 0, last_reset_date := today } else st

/-- `AlpacaAutoExecuteEngine.process_signal`.  Oracle inputs: `ai` is the
analyzer's outcome (consulted only when approval is required and an
analyzer is present), `broker` the broker view, `execOk` whether
`_execute_on_alpaca` reports success, `today`/`now` the wall clock. -/
def process_signal (st : AEState) (signal : ASignal) (ai : AIOutcome)
    (broker : Option BrokerView) (execOk : Bool) (today : ℤ) (now : ℚ) :
    AEResult × AEState :=
  if ¬st.config.enabled then
    ({ executed := false, reason := some AEReason.disabled, executorCalled := false }, st)
  else
    let st1 := dailyReset st today
    match preFlightChecks st1 signal now with
    | some r => ({ executed := false, reason := some r, executorCalled := false }, st1)
    | none =>
      let aiUsed : Option AIOutcome :=
        if st1.config.require_ai_approval ∧ st1.analyzerPresent then some ai else none
      let aiReject : Option AEReason :=
        match aiUsed with
        | none => none
        | some a =>
          if ¬a.should_execute then some AEReason.aiRejected
          else if a.score < st1.config.min_ai_score then some AEReason.aiScoreTooLow
          else none
      match aiReject with
      | some r => ({ executed := false, reason := some r, executorCalled := false }, st1)
      | none =>
        let rc := checkRiskManagement st1.config signal aiUsed broker
        if ¬rc.1 then
          ({ executed := false, reason := rc.2.1, executorCalled := false }, st1)
        else
          if execOk then
            let st2 := { st1 with
              daily_trades := st1.daily_trades + 1
              last_trade_time := alInsert signal.asset now st1.last_trade_time
              consecutive_errors := 0
              trade_history := st1.trade_history ++
                [{ signal_id := signal.id, symbol := signal.asset,
                   amount := rc.2.2.1,
                   ai_score := match aiUsed with
                     | some a => a.score
                     | none => 0 }] }
            ({ executed := true, reason := some AEReason.execSuccess,
               executorCalled := true }, st2)
          else
            let st2 := { st1 with consecutive_errors := st1.consecutive_errors + 1 }
            ({ executed := false, reason := some AEReason.execFailed,
               executorCalled := true }, st2)

/-! ## Specification-side definitions

These restate spec sentences in their own words, for the refinement
claims; they are compared with the source-derived definitions above. -/

/-- Spec section 4.2: the ordered rejection conditions of
`validate_trade`, first failure short-circuiting.  Checks 4 and 5 use the
sizing function (itself verified against the spec separately); check 5 is
worded as the spec does: total risk exceeds `max_portfolio_risk_percent`
of balance. -/
def specValidateReason (s : RiskSettings) (signal : Signal) (balance : ℚ)
    (current_positions : List Position) : Option RejectReason :=
  if current_positions.length ≥ s.max_open_positions then
    some RejectReason.maxOpenPositions
  else if current_positions.any (fun p => p.symbol = signal.asset) then
    some RejectReason.duplicateSymbol
  else if balance ≤ 0 then
    some RejectReason.insufficientBalance
  else
    let ps := calculate_position_size signal.entry signal.stop_loss balance
      s.max_risk_per_trade_percent signal.leverage
    if ¬ps.valid then ps.reason
    else if ps.risk_amount + (current_positions.map positionRisk).sum
        > s.max_portfolio_risk_percent / 100 * balance then
      some RejectReason.portfolioRiskTooHigh
    else none

/-- Spec section 4.1, number parsing: with both separators
present, the right-most one is the decimal point and the other kind is
removed as thousands separators; with only commas present, a single comma
followed by exactly two digits is a decimal point, otherwise commas are
removed as thousands separators; an unparseable token yields nothing. -/
def specParseNumber (s : String) : Option ℚ :=
  if s.isEmpty then none
  else
    let t := pyStrip s.toList
    let t2 :=
      if t.contains ',' ∧ t.contains '.' then
        if lastSepIsComma t then
          (t.filter (· ≠ '.')).map (fun c => if c = ',' then '.' else c)
        else t.filter (· ≠ ',')
      else if t.contains ',' then
        if t.count ',' = 1 ∧ ((t.dropWhile (· ≠ ',')).drop 1).length = 2
            ∧ ((t.dropWhile (· ≠ ',')).drop 1).all Char.isDigit then
          t.map (fun c => if c = ',' then '.' else c)
        else t.filter (· ≠ ',')
      else t
    pythonFloat t2

/-! ## Concrete example data for witnesses and counterexamples -/

def sigEx : Signal :=
  { id := "s1"
    source := SignalSource.manual
    asset := "BTC/USDT"
    action := SignalAction.long
    entry := 100
    stop_loss := 95
    take_profits := []
    leverage := 1
    confidence := 1/2 }

/-- The trade produced by executing `sigEx` on a fresh engine with
slippage factor 1 and trade id `t1`. -/
def tradeEx : Trade :=
  { signal_id := some "s1"
    symbol := "BTC/USDT"
    side := PositionSide.long
    entry_price := 100
    quantity := 40
    leverage := 1
    exit_price := none
    exit_time := none
    exit_reason := none
    realized_pnl := none
    realized_pnl_percent := none
    total_commission := 0
    status := TradeStatus.opened
    stop_loss := some 95
    take_profits := [] }

def posEx : Position :=
  { symbol := "BTC/USDT"
    side := PositionSide.long
    entry_price := 100
    quantity := 40
    leverage := 1
    current_price := 100
    unrealized_pnl := 0
    unrealized_pnl_percent := 0
    stop_loss := some 95
    take_profits := [] }

/-- Engine state after opening `sigEx` on a fresh engine. -/
def stEx1 : EngineState :=
  (execute_signal (initEngine defaultTradingSettings) sigEx none 1 "t1").2

/-- A state holding an open trade whose symbol has no position entry. -/
def stNoPos : EngineState :=
  { settings := defaultTradingSettings
    portfolio := (initEngine defaultTradingSettings).portfolio
    positions := []
    trades := [("t1", tradeEx)]
    open_trades := ["t1"] }

/-- A state holding an already-closed trade. -/
def stClosed : EngineState :=
  { stNoPos with trades := [("t1", { tradeEx with status := TradeStatus.closed })] }

def tradeC5 : Trade :=
  { signal_id := some "s2"
    symbol := "XYZ"
    side := PositionSide.short
    entry_price := 100
    quantity := 40
    leverage := 1
    exit_price := none
    exit_time := none
    exit_reason := none
    realized_pnl := none
    realized_pnl_percent := none
    total_commission := 0
    status := TradeStatus.opened
    stop_loss := some 110
    take_profits := [90, 95] }

def posC5 : Position :=
  { symbol := "XYZ"
    side := PositionSide.short
    entry_price := 100
    quantity := 40
    leverage := 1
    current_price := 100
    unrealized_pnl := 0
    unrealized_pnl_percent := 0
    stop_loss := some 110
    take_profits := [90, 95] }

/-- A state with one open short trade on XYZ: entry 100, stop 110, listed
(ascending) targets 90 and 95; the nearest target for the short is 95. -/
def stC5 : EngineState :=
  { settings := defaultTradingSettings
    portfolio :=
      { initial_balance := 10000
        current_balance := 10000
        available_balance := 6000
        margin_used := 4000
        total_pnl := 0, total_pnl_percent := 0
        open_positions := 1, total_positions_value := 4000
        total_trades := 0, winning_trades := 0, losing_trades := 0
        win_rate := 0, max_drawdown := 0 }
    positions := [("XYZ", posC5)]
    trades := [("tc5", tradeC5)]
    open_trades := ["tc5"] }

/-- An engine state holding exactly one open trade and its position, the
shape every reachable state has per traded symbol (the risk manager's
duplicate-symbol check keeps at most one open trade per symbol). -/
def singleTradeState (settings : TradingSettings) (pf : Portfolio) (sym tid : String)
    (t : Trade) (pos : Position) : EngineState :=
  { settings := settings
    portfolio := pf
    positions := [(sym, pos)]
    trades := [(tid, t)]
    open_trades := [tid] }

/-- A signal for the orchestrator that passes every pre-flight check of a
default configuration. -/
def aeSig : ASignal :=
  { id := "sig"
    asset := "AAPL"
    action := "long"
    source := "telegram"
    confidence := 9/10
    entry := 100
    stop_loss := 95
    take_profits := [] }

/-- Fresh orchestrator with the default configuration and no analyzer. -/
def aeInit : AEState := initAEState defaultAutoExecuteConfig false 0

/-- One submission of `aeSig` whose execution attempt fails. -/
def aeStep (st : AEState) : AEResult × AEState :=
  process_signal st aeSig { score := 0, should_execute := false } none false 0 0

/-- State after `n` failing submissions of `aeSig`. -/
def aeIter : ℕ → AEState
  | 0 => aeInit
  | n + 1 => (aeStep (aeIter n)).2

def psInvalid : ParsedSignal :=
  { raw_text := "hello"
    confidence := 0
    asset := none
    action := none
    entry := none
    stop_loss := none
    take_profits := []
    leverage := none
    timeframe := none
    errors := [] }

/-! ## Theorems -/

/- Batteries marks the `Rat` arithmetic primitives `[irreducible]`, which
blocks `decide` from evaluating concrete rational computations during
elaboration (the kernel itself can always unfold them, so soundness is
unaffected).  Restore the default reducibility locally so that concrete
witnesses can be checked by `decide`. -/
set_option allowUnsafeReducibility true
attribute [local semireducible] Rat.add Rat.sub Rat.mul Rat.inv Rat.div Rat.ofScientific

/-- C2: position sizing computes `risk_amount = balance * (pct/100)` and
`size = risk_amount / |entry - stop|`; it is invalid exactly when
`|entry - stop| ≤ 0` or `size * entry` exceeds `balance * leverage`; on an
approved result `position_size * |entry - stop|` equals the reported
`risk_amount`; and balance 10000 at 2% risk with entry 100, stop 95 gives
risk amount 200 and size 40. -/
theorem c2_position_sizing (entry stop bal pct lev : ℚ) (_hbal : 0 < bal) :
    (((calculate_position_size entry stop bal pct lev).valid = true) ↔
      (0 < |entry - stop| ∧ bal * (pct / 100) / |entry - stop| * entry ≤ bal * lev))
    ∧ ((calculate_position_size entry stop bal pct lev).valid = true →
        (calculate_position_size entry stop bal pct lev).position_size
            = bal * (pct / 100) / |entry - stop|
          ∧ (calculate_position_size entry stop bal pct lev).risk_amount = bal * (pct / 100)
          ∧ (calculate_position_size entry stop bal pct lev).position_size * |entry - stop|
              = (calculate_position_size entry stop bal pct lev).risk_amount)
    ∧ calculate_position_size 100 95 10000 2 1
        = { valid := true, reason := none, position_size := 40, risk_amount := 200
            risk_percent := 2, position_value := 4000 } := by
  refine ⟨?_, ?_, by decide⟩
  · by_cases h1 : |entry - stop| ≤ 0
    · simp only [calculate_position_size, if_pos h1, Bool.false_eq_true, false_iff, not_and]
      intro hpos
      exact absurd h1 (not_le.mpr hpos)
    · by_cases h2 : bal * (pct / 100) / |entry - stop| * entry > bal * lev
      · simp only [calculate_position_size, if_neg h1, if_pos h2, Bool.false_eq_true,
          false_iff, not_and]
        intro _
        exact not_le.mpr h2
      · simp only [calculate_position_size, if_neg h1, if_neg h2, true_iff]
        exact ⟨lt_of_not_le h1, not_lt.mp h2⟩
  · by_cases h1 : |entry - stop| ≤ 0
    · simp only [calculate_position_size, if_pos h1, Bool.false_eq_true, false_implies]
    · by_cases h2 : bal * (pct / 100) / |entry - stop| * entry > bal * lev
      · simp only [calculate_position_size, if_neg h1, if_pos h2, Bool.false_eq_true,
          false_implies]
      · intro _
        have hne : |entry - stop| ≠ 0 := ne_of_gt (lt_of_not_le h1)
        simp only [calculate_position_size, if_neg h1, if_neg h2]
        exact ⟨trivial, div_mul_cancel₀ _ hne, trivial⟩

/-- Closed witness for `c2_position_sizing` at the spec's example. -/
theorem c2_position_sizing_witness :
    (calculate_position_size 100 95 10000 2 1).position_size
        = 10000 * (2 / 100) / |100 - 95|
      ∧ (calculate_position_size 100 95 10000 2 1).risk_amount = 10000 * (2 / 100)
      ∧ (calculate_position_size 100 95 10000 2 1).position_size * |(100 : ℚ) - 95|
          = (calculate_position_size 100 95 10000 2 1).risk_amount :=
  (c2_position_sizing 100 95 10000 2 1 (by norm_num)).2.1 (by decide)

/-- C3: closing an unknown trade id, or a trade that is already closed,
returns failure and leaves the entire ledger state unchanged. -/
theorem c3_close_idempotent (st : EngineState) (tid : String) (r : ExitReason)
    (ep : Option ℚ) (sq now : ℚ)
    (h : alGet tid st.trades = none
      ∨ ∃ t, alGet tid st.trades = some t ∧ t.status = TradeStatus.closed) :
    close_trade st tid r ep sq now = (some false, st) := by
  rcases h with h | ⟨t, ht, hc⟩
  · unfold close_trade
    rw [h]
  · unfold close_trade
    rw [ht]
    simp [hc]

/-- Closed witness for `c3_close_idempotent`: a second close of an
already-closed trade, and a close of a missing id. -/
theorem c3_close_idempotent_witness :
    close_trade stClosed "t1" ExitReason.manual none 0 0 = (some false, stClosed)
      ∧ close_trade stNoPos "zzz" ExitReason.manual none 0 0 = (some false, stNoPos) :=
  ⟨c3_close_idempotent stClosed "t1" ExitReason.manual none 0 0
      (Or.inr ⟨{ tradeEx with status := TradeStatus.closed }, by decide, rfl⟩),
    c3_close_idempotent stNoPos "zzz" ExitReason.manual none 0 0 (Or.inl (by decide))⟩

/-- C10: closing a not-yet-closed trade whose symbol has no position entry
returns success and only flips the trade's status to closed — no exit
price, exit time, realized P&L, margin release, or any other state
change. -/
theorem c10_close_without_position (st : EngineState) (tid : String) (r : ExitReason)
    (ep : Option ℚ) (sq now : ℚ) (t : Trade)
    (ht : alGet tid st.trades = some t)
    (hopen : t.status ≠ TradeStatus.closed)
    (hpos : alGet t.symbol st.positions = none) :
    close_trade st tid r ep sq now
      = (some true,
          { st with trades := alInsert tid ({ t with status := TradeStatus.closed }) st.trades }) := by
  unfold close_trade
  rw [ht]
  simp [hopen, hpos]

/-- Closed witness for `c10_close_without_position`. -/
theorem c10_close_without_position_witness :
    close_trade stNoPos "t1" ExitReason.manual none 0 0
      = (some true,
          { stNoPos with
            trades := alInsert "t1" ({ tradeEx with status := TradeStatus.closed }) stNoPos.trades }) :=
  c10_close_without_position stNoPos "t1" ExitReason.manual none 0 0 tradeEx
    (by decide) (by decide) (by decide)

/-- C7: parsed confidence always lies in [0, 1]; `is_valid` holds exactly
when asset, action, entry and stop-loss are all non-null; and an invalid
intent is never promoted to a `Signal`. -/
theorem c7_confidence_validity :
    (∀ p : ParsedSignal, 0 ≤ calculate_confidence p ∧ calculate_confidence p ≤ 1)
    ∧ (∀ p : ParsedSignal, p.is_valid = true ↔
        (p.asset.isSome = true ∧ p.action.isSome = true
          ∧ p.entry.isSome = true ∧ p.stop_loss.isSome = true))
    ∧ (∀ (p : ParsedSignal) (src : SignalSource) (sid : Option String),
        p.is_valid = false → p.to_signal src sid = none) := by
  refine ⟨?_, ?_, ?_⟩
  · intro p
    unfold calculate_confidence
    constructor
    · apply le_min _ zero_le_one
      apply div_nonneg _ (by norm_num)
      split_ifs <;> norm_num
    · exact min_le_right _ _
  · intro p
    unfold ParsedSignal.is_valid
    simp [Bool.and_eq_true, and_assoc]
  · intro p src sid hinv
    unfold ParsedSignal.to_signal
    simp [hinv]

/-- Closed witness for `c7_confidence_validity`: an all-empty intent is
invalid and is not promoted. -/
theorem c7_confidence_validity_witness :
    psInvalid.to_signal SignalSource.manual none = none :=
  c7_confidence_validity.2.2 psInvalid SignalSource.manual none (by decide)

/-- C8: unrealized P&L is the side-signed price difference times quantity
times leverage, the P&L percent is the un-leveraged per-unit P&L over the
entry price times 100, and realized P&L on close follows the identical
formulas at the exit price (the engine closes with zero commission). -/
theorem c8_pnl_formulas :
    (∀ (p : Position) (cp : ℚ),
      (Position.update_pnl p cp).unrealized_pnl
          = (if p.side = PositionSide.long then cp - p.entry_price else p.entry_price - cp)
              * p.quantity * p.leverage
        ∧ (p.entry_price ≠ 0 → p.quantity ≠ 0 →
            (Position.update_pnl p cp).unrealized_pnl_percent
              = (if p.side = PositionSide.long then cp - p.entry_price else p.entry_price - cp)
                  / p.entry_price * 100))
    ∧ (∀ (t : Trade) (ep now : ℚ) (r : ExitReason),
      (Trade.close t ep r 0 now).realized_pnl
          = some ((if t.side = PositionSide.long then ep - t.entry_price else t.entry_price - ep)
              * t.quantity * t.leverage)
        ∧ (t.entry_price ≠ 0 → t.quantity ≠ 0 →
            (Trade.close t ep r 0 now).realized_pnl_percent
              = some ((if t.side = PositionSide.long then ep - t.entry_price
                  else t.entry_price - ep) / t.entry_price * 100))) := by
  constructor
  · intro p cp
    unfold Position.update_pnl
    constructor
    · split_ifs <;> ring
    · intro he hq
      have hvz : p.entry_price * p.quantity ≠ 0 := mul_ne_zero he hq
      simp only [hvz, if_false]
      split_ifs <;> field_simp <;> ring
  · intro t ep now r
    unfold Trade.close
    constructor
    · simp only [Option.some.injEq]
      split_ifs <;> ring
    · intro he hq
      have hvz : t.entry_price * t.quantity ≠ 0 := mul_ne_zero he hq
      simp only [hvz, if_false, Option.some.injEq]
      split_ifs <;> field_simp <;> ring

/-- Closed witness for `c8_pnl_formulas` at a concrete long position and
its closing trade. -/
theorem c8_pnl_formulas_witness :
    (Position.update_pnl posEx 110).unrealized_pnl_percent
        = (if posEx.side = PositionSide.long then 110 - posEx.entry_price
            else posEx.entry_price - 110) / posEx.entry_price * 100
      ∧ (Trade.close tradeEx 110 ExitReason.manual 0 0).realized_pnl_percent
        = some ((if tradeEx.side = PositionSide.long then 110 - tradeEx.entry_price
            else tradeEx.entry_price - 110) / tradeEx.entry_price * 100) :=
  ⟨(c8_pnl_formulas.1 posEx 110).2 (by decide) (by decide),
    (c8_pnl_formulas.2 tradeEx 110 0 ExitReason.manual).2 (by decide) (by decide)⟩

/-- The code's portfolio-risk test `total / balance * 100 > maxp` agrees
with the spec's wording `total > maxp/100 * balance` for positive
balances. -/
theorem riskCondIff {total bal maxp : ℚ} (hbal : 0 < bal) :
    total / bal * 100 > maxp ↔ total > maxp / 100 * bal := by
  rw [gt_iff_lt, gt_iff_lt, div_mul_eq_mul_div, div_mul_eq_mul_div, lt_div_iff₀ hbal,
    div_lt_iff₀ (show (0:ℚ) < 100 by norm_num)]

/-- An invalid sizing result always carries a rejection reason. -/
theorem calculate_position_size_invalid_reason (e st b pc lv : ℚ)
    (h : ¬(calculate_position_size e st b pc lv).valid = true) :
    (calculate_position_size e st b pc lv).reason ≠ none := by
  simp only [calculate_position_size] at h ⊢
  split_ifs at h ⊢ <;> simp_all

/-- C4: `validate_trade` checks its rejection conditions in the fixed spec
order with short-circuit — its reason is exactly the first failing check
of the spec's ordered list, and approval holds exactly when none fails;
in particular a duplicate-symbol signal is always rejected with the
duplicate reason whenever the position-count check passes, regardless of
the signal's other fields. -/
theorem c4_validate_order :
    (∀ (s : RiskSettings) (sig : Signal) (bal : ℚ) (ps : List Position),
      (validate_trade s sig bal ps).reason = specValidateReason s sig bal ps
        ∧ ((validate_trade s sig bal ps).approved = true ↔
            specValidateReason s sig bal ps = none))
    ∧ (∀ (s : RiskSettings) (sig : Signal) (bal : ℚ) (ps : List Position),
        ps.length < s.max_open_positions →
        (∃ p ∈ ps, p.symbol = sig.asset) →
        (validate_trade s sig bal ps).approved = false
          ∧ (validate_trade s sig bal ps).reason = some RejectReason.duplicateSymbol) := by
  constructor
  · intro s sig bal ps
    simp only [validate_trade, specValidateReason]
    split_ifs with h1 h2 h3 h4 h5 h6 h7
    · exact ⟨rfl, by simp⟩
    · exact ⟨rfl, by simp⟩
    · exact ⟨rfl, by simp⟩
    · exact ⟨rfl, by simp⟩
    · exact (h6 ((riskCondIff (lt_of_not_le h3)).mp h5)).elim
    · exact (h5 ((riskCondIff (lt_of_not_le h3)).mpr h7)).elim
    · exact ⟨rfl, by simp⟩
    · refine ⟨rfl, ?_⟩
      simp only [Bool.false_eq_true, false_iff]
      exact calculate_position_size_invalid_reason sig.entry sig.stop_loss bal
        s.max_risk_per_trade_percent sig.leverage h4
  · intro s sig bal ps hlen hdup
    have h1 : ¬ps.length ≥ s.max_open_positions := not_le.mpr hlen
    have h2 : ps.any (fun p => p.symbol = sig.asset) = true := by
      rcases hdup with ⟨p, hp, hsym⟩
      exact List.any_eq_true.mpr ⟨p, hp, by simp [hsym]⟩
    simp only [validate_trade]
    rw [if_neg h1, if_pos h2]
    exact ⟨rfl, rfl⟩

/-- Closed witness for `c4_validate_order`: a second BTC/USDT signal while
a BTC/USDT position is open is rejected as a duplicate. -/
theorem c4_validate_order_witness :
    (validate_trade defaultRiskSettings sigEx 10000 [posEx]).approved = false
      ∧ (validate_trade defaultRiskSettings sigEx 10000 [posEx]).reason
        = some RejectReason.duplicateSymbol :=
  c4_validate_order.2 defaultRiskSettings sigEx 10000 [posEx] (by decide)
    ⟨posEx, by decide, by decide⟩

/-- Preservation of the portfolio invariant by a single ledger operation
(open or close); shared helper for the invariant theorem. -/
theorem applyOp_portfolioInv (st : EngineState) (op : EngineOp)
    (h : portfolioInv st) : portfolioInv (applyOp st op) := by
  cases op with
  | exec sig cq slip tid =>
    show portfolioInv (execute_signal st sig cq slip tid).2
    by_cases happ : (engineRiskCheck st sig).approved = true
    · simp [execute_signal, happ, portfolioInv]
    · simp [execute_signal, happ]
      exact h
  | closeOp tid r ep sq now =>
    show portfolioInv (close_trade st tid r ep sq now).2
    unfold close_trade
    cases halg : alGet tid st.trades with
    | none => exact h
    | some t =>
      simp only
      by_cases hst : t.status = TradeStatus.closed
      · simp only [if_pos hst]
        exact h
      · simp only [if_neg hst]
        cases hp : alGet t.symbol st.positions with
        | none => exact h
        | some pos =>
          simp only
          split
          · exact h
          · simp [portfolioInv]

/-- C1: across every sequence of opens and closes from a fresh engine the
portfolio satisfies `available_balance = current_balance - margin_used`;
an executed open reserves margin `size * entry / leverage` and recomputes
the available balance; a close with an existing position credits the
realized P&L to the current balance, releases the same margin, and
recomputes the available balance. -/
theorem c1_portfolio_invariant :
    (∀ (settings : TradingSettings) (ops : List EngineOp),
      portfolioInv (runOps (initEngine settings) ops))
    ∧ (∀ (st : EngineState) (sig : Signal) (cq : Option ℚ) (slip : ℚ) (tid : String),
        (execute_signal st sig cq slip tid).1.isSome = true →
        (execute_signal st sig cq slip tid).2.portfolio.margin_used
            = st.portfolio.margin_used
              + executedQuantity (engineRiskCheck st sig) cq * (sig.entry * slip) / sig.leverage
          ∧ (execute_signal st sig cq slip tid).2.portfolio.available_balance
            = (execute_signal st sig cq slip tid).2.portfolio.current_balance
              - (execute_signal st sig cq slip tid).2.portfolio.margin_used)
    ∧ (∀ (st : EngineState) (tid : String) (r : ExitReason) (p sq now : ℚ) (t : Trade),
        alGet tid st.trades = some t →
        t.status ≠ TradeStatus.closed →
        (alGet t.symbol st.positions).isSome = true →
        (close_trade st tid r (some p) sq now).2.portfolio.current_balance
            = st.portfolio.current_balance
              + (if t.side = PositionSide.long then p - t.entry_price
                 else t.entry_price - p) * t.quantity * t.leverage
          ∧ (close_trade st tid r (some p) sq now).2.portfolio.margin_used
            = st.portfolio.margin_used - t.quantity * t.entry_price / t.leverage
          ∧ (close_trade st tid r (some p) sq now).2.portfolio.available_balance
            = (close_trade st tid r (some p) sq now).2.portfolio.current_balance
              - (close_trade st tid r (some p) sq now).2.portfolio.margin_used) := by
  refine ⟨?_, ?_, ?_⟩
  · intro settings ops
    have hrun : ∀ (l : List EngineOp) (st : EngineState),
        portfolioInv st → portfolioInv (runOps st l) := by
      intro l
      induction l with
      | nil => intro st h; exact h
      | cons op rest ih =>
        intro st h
        exact ih _ (applyOp_portfolioInv st op h)
    exact hrun ops _ (by simp [portfolioInv, initEngine])
  · intro st sig cq slip tid hsome
    by_cases happ : (engineRiskCheck st sig).approved = true
    · constructor
      · simp [execute_signal, happ]
        try ring
      · simp [execute_signal, happ]
    · exfalso
      simp [execute_signal, happ] at hsome
  · intro st tid r p sq now t ht hop hpos
    obtain ⟨pos, hpos2⟩ := Option.isSome_iff_exists.mp hpos
    unfold close_trade
    rw [ht]
    simp only [if_neg hop, hpos2]
    refine ⟨?_, ?_, ?_⟩
    · cases hside : t.side <;>
        simp [Trade.close, Portfolio.update_from_trade, hside]
    · simp [Trade.close, Portfolio.update_from_trade]
    · simp [Trade.close, Portfolio.update_from_trade]

/-- Closed witness for `c1_portfolio_invariant`: the open and close
clauses at a concrete executed trade. -/
theorem c1_portfolio_invariant_witness :
    ((execute_signal (initEngine defaultTradingSettings) sigEx none 1 "t1").2.portfolio.margin_used
        = (initEngine defaultTradingSettings).portfolio.margin_used
          + executedQuantity (engineRiskCheck (initEngine defaultTradingSettings) sigEx) none
              * (sigEx.entry * 1) / sigEx.leverage
      ∧ (execute_signal (initEngine defaultTradingSettings) sigEx none 1 "t1").2.portfolio.available_balance
        = (execute_signal (initEngine defaultTradingSettings) sigEx none 1 "t1").2.portfolio.current_balance
          - (execute_signal (initEngine defaultTradingSettings) sigEx none 1 "t1").2.portfolio.margin_used)
    ∧ ((close_trade stEx1 "t1" ExitReason.manual (some 90) 0 0).2.portfolio.current_balance
        = stEx1.portfolio.current_balance
          + (if tradeEx.side = PositionSide.long then 90 - tradeEx.entry_price
             else tradeEx.entry_price - 90) * tradeEx.quantity * tradeEx.leverage
      ∧ (close_trade stEx1 "t1" ExitReason.manual (some 90) 0 0).2.portfolio.margin_used
        = stEx1.portfolio.margin_used - tradeEx.quantity * tradeEx.entry_price / tradeEx.leverage
      ∧ (close_trade stEx1 "t1" ExitReason.manual (some 90) 0 0).2.portfolio.available_balance
        = (close_trade stEx1 "t1" ExitReason.manual (some 90) 0 0).2.portfolio.current_balance
          - (close_trade stEx1 "t1" ExitReason.manual (some 90) 0 0).2.portfolio.margin_used) :=
  ⟨c1_portfolio_invariant.2.1 (initEngine defaultTradingSettings) sigEx none 1 "t1" (by decide),
    c1_portfolio_invariant.2.2 stEx1 "t1" ExitReason.manual 90 0 0 tradeEx
      (by decide) (by decide) (by decide)⟩

/-- C6 counterexample: the claim as stated is false on the code. In the
concrete run of repeatedly submitting the same passing signal with a
failing executor from a fresh engine, the 6th submission — not the
11th — is already rejected with the circuit-breaker reason during
pre-flight, without the executor being called, because the engine's
threshold `max_consecutive_errors` is 5, not 10; consequently 10
consecutive executor failures can never occur. -/
theorem c6_circuit_breaker_counterexample :
    (aeStep (aeIter 5)).1.executorCalled = false
      ∧ (aeStep (aeIter 5)).1.reason = some AEReason.circuitBreakerOpen
      ∧ (aeIter 5).consecutive_errors = 5
      ∧ aeInit.max_consecutive_errors = 5
      ∧ ¬(∀ k, k < 10 → (aeStep (aeIter k)).1.executorCalled = true) := by
  refine ⟨by decide, by decide, by decide, by decide, fun hall => ?_⟩
  have h6 : (aeStep (aeIter 5)).1.executorCalled = true := hall 5 (by decide)
  simp only [show (aeStep (aeIter 5)).1.executorCalled = false from by decide] at h6
  exact Bool.false_ne_true h6

/-- C6 (amended): the consecutive-error counter increments on each
executor failure and resets to zero on each successful execution; once
the counter has reached the engine's threshold `max_consecutive_errors`
(initialized to 5), a signal passing the earlier pre-flight checks is
rejected with the circuit-breaker reason and the executor is not called;
concretely, after 5 consecutive executor failures the 6th signal is
rejected this way. -/
theorem c6_circuit_breaker_amended :
    (∀ (st : AEState) (sig : ASignal) (ai : AIOutcome) (brk : Option BrokerView)
        (execOk : Bool) (today : ℤ) (now : ℚ),
      ((process_signal st sig ai brk execOk today now).1.executorCalled = true →
          execOk = false →
          (process_signal st sig ai brk execOk today now).2.consecutive_errors
            = st.consecutive_errors + 1)
        ∧ ((process_signal st sig ai brk execOk today now).1.executorCalled = true →
            execOk = true →
            (process_signal st sig ai brk execOk today now).2.consecutive_errors = 0)
        ∧ ((process_signal st sig ai brk execOk today now).1.executorCalled = false →
            (process_signal st sig ai brk execOk today now).2.consecutive_errors
              = st.consecutive_errors))
    ∧ (∀ (st : AEState) (sig : ASignal) (now : ℚ),
        st.daily_trades < st.config.max_daily_trades →
        st.config.allowed_sources.any
          (fun s => decide (s.toList <:+: sig.source.toList.map Char.toLower)) = true →
        st.config.min_confidence ≤ sig.confidence →
        alGet sig.asset st.last_trade_time = none →
        st.max_consecutive_errors ≤ st.consecutive_errors →
        preFlightChecks st sig now = some AEReason.circuitBreakerOpen)
    ∧ (∀ (st : AEState) (sig : ASignal) (ai : AIOutcome) (brk : Option BrokerView)
        (execOk : Bool) (today : ℤ) (now : ℚ) (rr : AEReason),
        st.config.enabled = true →
        preFlightChecks (dailyReset st today) sig now = some rr →
        process_signal st sig ai brk execOk today now
          = ({ executed := false, reason := some rr, executorCalled := false },
             dailyReset st today))
    ∧ ((∀ k, k < 5 → (aeStep (aeIter k)).1.executorCalled = true
          ∧ (aeStep (aeIter k)).1.reason = some AEReason.execFailed)
        ∧ (aeIter 5).consecutive_errors = 5
        ∧ (aeStep (aeIter 5)).1.reason = some AEReason.circuitBreakerOpen
        ∧ (aeStep (aeIter 5)).1.executorCalled = false) := by
  refine ⟨?_, ?_, ?_, by decide, by decide, by decide, by decide⟩
  · intro st sig ai brk execOk today now
    have hdr : (dailyReset st today).consecutive_errors = st.consecutive_errors := by
      unfold dailyReset
      split_ifs <;> rfl
    unfold process_signal
    dsimp only
    repeat' split
    all_goals refine ⟨fun hc hx => ?_, fun hc hx => ?_, fun hc => ?_⟩
    all_goals simp_all
  · intro st sig now hdaily hsrc hconf hcool htrip
    unfold preFlightChecks
    rw [if_neg (not_le.mpr hdaily)]
    rw [if_neg (fun h => h.2.2 hsrc)]
    rw [if_neg (not_lt.mpr hconf)]
    rw [hcool]
    rw [if_pos htrip]
  · intro st sig ai brk execOk today now rr hen hpf
    unfold process_signal
    dsimp only
    rw [if_neg (not_not_intro hen), hpf]

/-- Closed witness for `c6_circuit_breaker_amended` at the concrete run:
the first failing submission increments the counter, and the tripped
breaker rejects the next signal. -/
theorem c6_circuit_breaker_witness :
    ((aeStep aeInit).2.consecutive_errors = aeInit.consecutive_errors + 1)
      ∧ preFlightChecks (aeIter 5) aeSig 0 = some AEReason.circuitBreakerOpen
      ∧ process_signal (aeIter 5) aeSig { score := 0, should_execute := false } none false 0 0
        = ({ executed := false, reason := some AEReason.circuitBreakerOpen,
             executorCalled := false }, dailyReset (aeIter 5) 0) :=
  ⟨(c6_circuit_breaker_amended.1 aeInit aeSig { score := 0, should_execute := false }
      none false 0 0).1 (by decide) rfl,
    c6_circuit_breaker_amended.2.1 (aeIter 5) aeSig 0 (by decide) (by decide)
      (by decide) (by decide) (by decide),
    c6_circuit_breaker_amended.2.2.1 (aeIter 5) aeSig { score := 0, should_execute := false }
      none false 0 0 AEReason.circuitBreakerOpen (by decide)
      (c6_circuit_breaker_amended.2.1 (aeIter 5) aeSig 0 (by decide) (by decide)
        (by decide) (by decide) (by decide))⟩

/-- Any non-digit, non-period character in a token makes Python `float`
fail on it. -/
theorem pythonFloat_none_of_bad (cs : List Char) (c : Char) (hc : c ∈ cs)
    (hbad : ¬(c.isDigit = true ∨ c = '.')) : pythonFloat cs = none := by
  unfold pythonFloat
  rw [if_neg]
  rintro ⟨hall, -, -⟩
  have := List.all_eq_true.mp hall c hc
  simp only [Bool.or_eq_true, decide_eq_true_eq] at this
  exact hbad this

/-- When a character occurs exactly once in a list, the suffix after its
first occurrence does not contain it (so Python's `text.split(',')[1]` is
comma-free when `text.count(',') == 1`). -/
theorem not_mem_after_single (a : Char) : ∀ (l : List Char),
    l.count a = 1 → a ∉ (l.dropWhile (· ≠ a)).drop 1 := by
  intro l
  induction l with
  | nil => simp
  | cons c rest ih =>
    intro h
    by_cases hca : c = a
    · subst hca
      have hcnt : rest.count c = 0 := by
        have h2 := List.count_cons_self c rest
        omega
      have hd : (fun x => decide (x ≠ c)) c = false := by simp
      simp only [List.dropWhile_cons, hd, Bool.false_eq_true, if_false,
        List.drop_succ_cons, List.drop_zero]
      exact List.count_eq_zero.mp hcnt
    · have hd : (fun x => decide (x ≠ a)) c = true := by
        simp [hca]
      have hcount : rest.count a = 1 := by
        rw [List.count_cons] at h
        simp only [beq_iff_eq, hca, if_false] at h
        omega
      simp only [List.dropWhile_cons, hd, if_true]
      exact ih hcount

/-- C9: the source's number parsing agrees with the spec's
comma/period-disambiguation rules on every token, and on the spec's
standard shapes: both separators present (right-most is the decimal
point), a single comma with exactly two digits after it (decimal),
thousands-separator commas, and unparseable tokens yielding nothing. -/
theorem c9_number_parsing :
    (∀ s : String, parse_number s = specParseNumber s)
    ∧ parse_number ("1.234,56") = some (123456/100)
    ∧ parse_number ("1,234.56") = some (123456/100)
    ∧ parse_number ("1234,56") = some (123456/100)
    ∧ parse_number ("1,234") = some 1234
    ∧ parse_number ("95,5") = some 955
    ∧ parse_number ("..,") = none := by
  refine ⟨?_, by decide, by decide, by decide, by decide, by decide, by decide⟩
  intro s
  unfold parse_number specParseNumber
  by_cases hs : s.isEmpty = true
  · rw [if_pos hs, if_pos hs]
  · rw [if_neg hs, if_neg hs]
    dsimp only
    by_cases hb : (pyStrip s.toList).contains ',' = true ∧ (pyStrip s.toList).contains '.' = true
    · rw [if_pos hb, if_pos hb]
    · rw [if_neg hb, if_neg hb]
      by_cases hcm : (pyStrip s.toList).contains ',' = true
      · rw [if_pos hcm, if_pos hcm]
        by_cases h1 : (pyStrip s.toList).count ',' = 1
            ∧ (((pyStrip s.toList).dropWhile (· ≠ ',')).drop 1).length = 2
        · by_cases h2 : (((pyStrip s.toList).dropWhile (· ≠ ',')).drop 1).all Char.isDigit = true
          · rw [if_pos h1, if_pos ⟨h1.1, h1.2, h2⟩]
          · rw [if_pos h1, if_neg (fun hc => h2 hc.2.2)]
            obtain ⟨c, hcmem, hcbad⟩ :
                ∃ c ∈ ((pyStrip s.toList).dropWhile (· ≠ ',')).drop 1, ¬c.isDigit = true := by
              by_contra hno
              push_neg at hno
              exact h2 (List.all_eq_true.mpr hno)
            have hsub : List.Sublist (((pyStrip s.toList).dropWhile (· ≠ ',')).drop 1)
                (pyStrip s.toList) :=
              (List.drop_sublist 1 _).trans (List.dropWhile_sublist _)
            have hct : c ∈ pyStrip s.toList := hsub.subset hcmem
            have hcnotcomma : c ≠ ',' := by
              intro hceq
              subst hceq
              exact not_mem_after_single ',' (pyStrip s.toList) h1.1 hcmem
            have hcnotdot : c ≠ '.' := by
              intro hceq
              subst hceq
              have hdot : (pyStrip s.toList).contains '.' = true := by
                simpa using hct
              exact hb ⟨hcm, hdot⟩
            have hbad : ¬(c.isDigit = true ∨ c = '.') := by
              rintro (h | h)
              exacts [hcbad h, hcnotdot h]
            rw [pythonFloat_none_of_bad _ c
                (List.mem_map.mpr ⟨c, hct, by simp [hcnotcomma]⟩) hbad,
              pythonFloat_none_of_bad _ c
                (List.mem_filter.mpr ⟨hct, by simp [hcnotcomma]⟩) hbad]
        · rw [if_neg h1, if_neg (fun hc => h1 ⟨hc.1, hc.2.1⟩)]
      · rw [if_neg hcm, if_neg hcm]

/-- Closing a trade never lengthens the open-trades list. -/
theorem close_trade_open_le (st : EngineState) (tid : String) (r : ExitReason)
    (ep : Option ℚ) (sq now : ℚ) :
    (close_trade st tid r ep sq now).2.open_trades.length ≤ st.open_trades.length := by
  unfold close_trade
  cases _h : alGet tid st.trades with
  | none => simp
  | some t =>
    simp only
    split
    · simp
    · cases _h2 : alGet t.symbol st.positions with
      | none => simp
      | some pos =>
        simp only
        split
        · simp
        · simp [List.length_erase_le]

/-- One sweep-loop step never lengthens the open-trades list. -/
theorem sweepBody_open_le (sym : String) (np now : ℚ) (st : EngineState) (tid : String) :
    (sweepBody sym np now st tid).open_trades.length ≤ st.open_trades.length := by
  unfold sweepBody
  cases _h : alGet tid st.trades with
  | none => simp
  | some t =>
    simp only
    split
    · split
      · exact close_trade_open_le ..
      · split
        · exact close_trade_open_le ..
        · simp
    · simp

/-- On a state with a single open trade, the SL/TP sweep is exactly one
body step. -/
theorem sweep_singleton (sym : String) (np now : ℚ) (st : EngineState) (tid : String)
    (h : st.open_trades = [tid]) :
    sweep sym np now 0 st = sweepBody sym np now st tid := by
  obtain ⟨se, pf, ps, tr, ot⟩ := st
  subst h
  have hlen : (sweepBody sym np now ⟨se, pf, ps, tr, [tid]⟩ tid).open_trades.length ≤ 1 := by
    have := sweepBody_open_le sym np now ⟨se, pf, ps, tr, [tid]⟩ tid
    simpa using this
  rw [sweep, dif_pos (show 0 < ([tid] : List String).length by simp)]
  show sweep sym np now 1 (sweepBody sym np now ⟨se, pf, ps, tr, [tid]⟩ tid)
    = sweepBody sym np now ⟨se, pf, ps, tr, [tid]⟩ tid
  rw [sweep, dif_neg (by omega)]

/-- C5 counterexample: the claim as stated is false on the code for short
trades. A short trade on XYZ with entry 100 and listed (ascending)
targets [90, 95] sees the price drop to 94, which crosses its nearest
take-profit (the highest listed target, 95) — but the price update
leaves the trade open with no exit recorded, because the source always
compares against `take_profits[0]` (here 90). -/
theorem c5_autoclose_counterexample :
    (tradeC5.side = PositionSide.short ∧ tradeC5.take_profits = [90, 95]
      ∧ posC5.current_price * (1 + (-6) / 100) = 94 ∧ (94 : ℚ) ≤ 95)
    ∧ alGet "tc5" (simulate_price_update stC5 "XYZ" (some (-6)) 0 0).trades = some tradeC5
    ∧ tradeC5.status = TradeStatus.opened ∧ tradeC5.exit_reason = none := by
  have hnp : posC5.current_price * (1 + (-6) / 100) = 94 := by
    norm_num [posC5]
  have hs : simulate_price_update stC5 "XYZ" (some (-6)) 0 0
      = sweepBody "XYZ" (posC5.current_price * (1 + (-6) / 100)) 0
          { stC5 with
            positions := [("XYZ",
              Position.update_pnl posC5 (posC5.current_price * (1 + (-6) / 100)))] } "tc5" := by
    unfold simulate_price_update stC5
    simp only [alGet, if_pos, Option.getD, alInsert]
    rw [sweep_singleton]
    rfl
  refine ⟨⟨rfl, rfl, hnp, by norm_num⟩, ?_, rfl, rfl⟩
  rw [hs, hnp]
  decide

/-- C5 (amended): on a price update for a symbol holding one open trade,
the trade is closed with reason stop-loss at the stop price when the new
price has crossed a truthy (non-zero) stop (long: price ≤ stop, short:
price ≥ stop); otherwise it is closed with reason take-profit at the
first listed target `take_profits[0]` — for a long the lowest listed
target, which is the nearest one above entry, but for a short also the
lowest listed target, i.e. the farthest — when the price has crossed it
(long: price ≥ that target, short: price ≤ it); otherwise the trade
stays untouched and only the position's P&L is updated. -/
theorem c5_autoclose_amended
    (settings : TradingSettings) (pf : Portfolio) (sym tid : String)
    (t : Trade) (pos : Position) (chg now : ℚ)
    (hsym : t.symbol = sym) (hstat : t.status ≠ TradeStatus.closed) :
    (∀ sl : ℚ, t.stop_loss = some sl → sl ≠ 0 →
      ((t.side = PositionSide.long ∧ pos.current_price * (1 + chg / 100) ≤ sl)
        ∨ (t.side = PositionSide.short ∧ sl ≤ pos.current_price * (1 + chg / 100))) →
      (simulate_price_update (singleTradeState settings pf sym tid t pos) sym
          (some chg) 0 now).trades
          = [(tid, Trade.close t sl ExitReason.stopLoss 0 now)]
        ∧ (simulate_price_update (singleTradeState settings pf sym tid t pos) sym
            (some chg) 0 now).positions = []
        ∧ (simulate_price_update (singleTradeState settings pf sym tid t pos) sym
            (some chg) 0 now).open_trades = [])
    ∧ (∀ (tp : ℚ) (rest : List ℚ),
        stopHit t.side (pos.current_price * (1 + chg / 100)) t.stop_loss = false →
        t.take_profits = tp :: rest →
        ((t.side = PositionSide.long ∧ tp ≤ pos.current_price * (1 + chg / 100))
          ∨ (t.side = PositionSide.short ∧ pos.current_price * (1 + chg / 100) ≤ tp)) →
        (simulate_price_update (singleTradeState settings pf sym tid t pos) sym
            (some chg) 0 now).trades
            = [(tid, Trade.close t tp ExitReason.takeProfit 0 now)]
          ∧ (simulate_price_update (singleTradeState settings pf sym tid t pos) sym
              (some chg) 0 now).positions = []
          ∧ (simulate_price_update (singleTradeState settings pf sym tid t pos) sym
              (some chg) 0 now).open_trades = [])
    ∧ (stopHit t.side (pos.current_price * (1 + chg / 100)) t.stop_loss = false →
        tpHit t.side (pos.current_price * (1 + chg / 100)) t.take_profits = false →
        simulate_price_update (singleTradeState settings pf sym tid t pos) sym
            (some chg) 0 now
          = { singleTradeState settings pf sym tid t pos with
              positions := [(sym,
                Position.update_pnl pos (pos.current_price * (1 + chg / 100)))] }) := by
  have hmain : simulate_price_update (singleTradeState settings pf sym tid t pos) sym
      (some chg) 0 now
      = sweepBody sym (pos.current_price * (1 + chg / 100)) now
          { singleTradeState settings pf sym tid t pos with
            positions := [(sym,
              Position.update_pnl pos (pos.current_price * (1 + chg / 100)))] }
          tid := by
    unfold simulate_price_update singleTradeState
    simp only [alGet, if_pos, Option.getD, alInsert]
    rw [sweep_singleton]
    rfl
  refine ⟨?_, ?_, ?_⟩
  · intro sl hsl hsl0 hcross
    have hstop : stopHit t.side (pos.current_price * (1 + chg / 100)) t.stop_loss = true := by
      unfold stopHit
      rw [hsl]
      rcases hcross with ⟨hl, hc⟩ | ⟨hs2, hc⟩
      · simp [hl, hsl0, hc]
      · simp [hs2, hsl0, hc]
    rw [hmain]
    unfold sweepBody
    simp only [alGet, if_pos]
    rw [if_pos hsym, if_pos hstop]
    unfold close_trade
    simp only [alGet, if_pos]
    rw [if_neg hstat]
    simp only [hsym, if_pos, hsl]
    simp [alInsert, alErase, hsym, singleTradeState, List.erase_cons_head]
  · intro tp rest hstop htps hcross
    have htp : tpHit t.side (pos.current_price * (1 + chg / 100)) t.take_profits = true := by
      unfold tpHit
      rw [htps]
      rcases hcross with ⟨hl, hc⟩ | ⟨hs2, hc⟩
      · simp [hl, hc]
      · simp [hs2, hc]
    rw [hmain]
    unfold sweepBody
    simp only [alGet, if_pos]
    rw [if_pos hsym]
    simp only [hstop, Bool.false_eq_true, if_false]
    rw [if_pos htp]
    unfold close_trade
    simp only [alGet, if_pos]
    rw [if_neg hstat]
    simp only [hsym, if_pos, htps]
    simp [alInsert, alErase, hsym, singleTradeState, List.erase_cons_head]
  · intro hstop htp
    rw [hmain]
    unfold sweepBody
    simp only [alGet, if_pos]
    rw [if_pos hsym]
    simp only [hstop, htp, Bool.false_eq_true, if_false]

/-- Closed witness for `c5_autoclose_amended`: a +15% move on the short
XYZ trade crosses its stop 110 and closes it there; an unchanged price
leaves it open. -/
theorem c5_autoclose_amended_witness :
    ((simulate_price_update
        (singleTradeState defaultTradingSettings stC5.portfolio "XYZ" "tc5" tradeC5 posC5)
        "XYZ" (some 15) 0 0).trades
        = [("tc5", Trade.close tradeC5 110 ExitReason.stopLoss 0 0)]
      ∧ (simulate_price_update
          (singleTradeState defaultTradingSettings stC5.portfolio "XYZ" "tc5" tradeC5 posC5)
          "XYZ" (some 15) 0 0).positions = []
      ∧ (simulate_price_update
          (singleTradeState defaultTradingSettings stC5.portfolio "XYZ" "tc5" tradeC5 posC5)
          "XYZ" (some 15) 0 0).open_trades = [])
    ∧ simulate_price_update
        (singleTradeState defaultTradingSettings stC5.portfolio "XYZ" "tc5" tradeC5 posC5)
        "XYZ" (some 0) 0 0
      = { singleTradeState defaultTradingSettings stC5.portfolio "XYZ" "tc5" tradeC5 posC5 with
          positions := [("XYZ",
            Position.update_pnl posC5 (posC5.current_price * (1 + 0 / 100)))] } :=
  ⟨(c5_autoclose_amended defaultTradingSettings stC5.portfolio "XYZ" "tc5" tradeC5 posC5
      15 0 rfl (by decide)).1 110 rfl (by norm_num)
      (Or.inr ⟨rfl, by norm_num [posC5]⟩),
    (c5_autoclose_amended defaultTradingSettings stC5.portfolio "XYZ" "tc5" tradeC5 posC5
      0 0 rfl (by decide)).2.2 (by decide) (by decide)⟩
